import Mathlib

/-!
Shallow embedding of the simulation core of `src/index.tsx` (a 2D
extraction-looter).  JavaScript numbers are modelled as `ℚ` (every constant
in the source is a small decimal; no claim depends on float rounding).
Frame counters and list indices are `ℕ`, cooldowns `ℤ`.

Randomness (`Math.random()`) is threaded explicitly through an `Oracle`
record supplying the per-frame draws.  Rendering-only state (floating
texts, camera smoothing, fog-of-war set, colors, display names, React id
keys) is omitted: no mutation of simulation-relevant state depends on it.

`getDistance` in the source returns `Math.sqrt(dx*dx+dy*dy)` and is only
ever compared against positive constants; we embed the equivalent squared
comparison (`sqrt d < r ↔ d < r*r` for `0 ≤ r`).

The `onGameOver` callback of the source is modelled by appending the
argument triple `(success, lootValue, kills)` to a `callbacks` log, so the
number and order of invocations is observable.
-/

-- Batteries marks the `Rat` arithmetic `@[irreducible]`, which blocks the
-- elaborator-side evaluation that `decide` performs on concrete states.
-- Restoring the default reducibility (file-local) unblocks it; the kernel
-- never consults reducibility attributes, so nothing is assumed.
set_option allowUnsafeReducibility true
attribute [local semireducible] Rat.mul Rat.add Rat.sub Rat.div Rat.inv Rat.neg Rat.normalize

set_option maxRecDepth 4000
set_option autoImplicit false

namespace Battle

inductive EntityType
  | PLAYER | MOB_SLIME | MOB_BAT | ROGUE_AGENT | CHEST
deriving DecidableEq, Repr

inductive PlatformType
  | DIRT | STONE | WOOD | LAVA
deriving DecidableEq, Repr

inductive HeroType
  | SWORDSMAN | MAGE
deriving DecidableEq, Repr

inductive LootRarity
  | COMMON | EPIC | LEGENDARY | MYTHIC
deriving DecidableEq, Repr

structure Platform where
  x : ℚ
  y : ℚ
  width : ℚ
  height : ℚ
  type : PlatformType
deriving DecidableEq, Repr

/-- Loot item; display name / color omitted (rendering only). -/
structure Item where
  rarity : LootRarity
  value : ℚ
deriving DecidableEq, Repr

structure Entity where
  type : EntityType
  x : ℚ
  y : ℚ
  width : ℚ
  height : ℚ
  vx : ℚ
  vy : ℚ
  hp : ℚ
  maxHp : ℚ
  facing : ℤ
  attackCooldown : ℤ
  hitFlashTimer : ℤ
  isDead : Bool
  skillCooldown : ℤ
  jumpCount : ℕ
  isJumpKeyHeld : Bool
  jumpCooldown : ℤ
  isOpened : Bool
deriving DecidableEq, Repr

structure Rect where
  x : ℚ
  y : ℚ
  width : ℚ
  height : ℚ
deriving DecidableEq, Repr

def Entity.toRect (e : Entity) : Rect :=
  ⟨e.x, e.y, e.width, e.height⟩

def Platform.toRect (p : Platform) : Rect :=
  ⟨p.x, p.y, p.width, p.height⟩

-- Constants from the source head.
def GRAVITY : ℚ := 1/2
def FRICTION : ℚ := 17/20
def JUMP_FORCE : ℚ := -11
def INVENTORY_CAP : ℕ := 20
def moveForce : ℚ := 4/5

def rectIntersect (r1 r2 : Rect) : Bool :=
  !(decide (r2.x > r1.x + r1.width) || decide (r2.x + r2.width < r1.x) ||
    decide (r2.y > r1.y + r1.height) || decide (r2.y + r2.height < r1.y))

/-- Squared center distance; `getDistance e1 e2 < r` iff
`distSqCenter e1 e2 < r*r` for the nonnegative thresholds used. -/
def distSqCenter (e1 e2 : Entity) : ℚ :=
  let dx := (e1.x + e1.width/2) - (e2.x + e2.width/2)
  let dy := (e1.y + e1.height/2) - (e2.y + e2.height/2)
  dx*dx + dy*dy

def distLT (e1 e2 : Entity) (r : ℚ) : Bool :=
  decide (distSqCenter e1 e2 < r*r)

-- RARITY_CONFIG value ranges.
def rarityMin : LootRarity → ℚ
  | .COMMON => 1
  | .EPIC => 10
  | .LEGENDARY => 30
  | .MYTHIC => 200

def rarityMax : LootRarity → ℚ
  | .COMMON => 10
  | .EPIC => 30
  | .LEGENDARY => 80
  | .MYTHIC => 500

/-- `generateLoot` with the two `Math.random()` draws (`r` for the rarity
table, `v` for the value) passed in. -/
def generateLoot (r v : ℚ) : Item :=
  let rarity : LootRarity :=
    if r > 99/100 then .MYTHIC
    else if r > 9/10 then .LEGENDARY
    else if r > 3/5 then .EPIC
    else .COMMON
  { rarity := rarity,
    value := (Rat.floor (v * (rarityMax rarity - rarityMin rarity) + rarityMin rarity) : ℚ) }

/-- `handlePickup`: push into inventory only below the cap, then close the
modal and clear the loot-menu flag.  Returns
(inventory, lootModal, isLootMenuOpen). -/
def handlePickup (inv : List Item) (modal : Option Item) :
    List Item × Option Item × Bool :=
  match modal with
  | some it => (if inv.length < INVENTORY_CAP then inv ++ [it] else inv, none, false)
  | none => (inv, none, false)

/-- `handleDiscard`: close the modal, clear the flag, inventory untouched. -/
def handleDiscard (inv : List Item) : List Item × Option Item × Bool :=
  (inv, none, false)

-- Per-frame random draws of the source loop.
structure Oracle where
  spawnRight : Bool
  spawnBat : Bool
  lootR : ℚ
  lootV : ℚ
  potionDrop : Bool
  extractIdx : ℕ
deriving Repr

-- Sampled key state (`keysRef`): A/Left, D/Right, Space/Up/W, J, K, Digit1, H.
structure Input where
  left : Bool
  right : Bool
  jump : Bool
  attack : Bool
  skill : Bool
  potion : Bool
  search : Bool
deriving DecidableEq, Repr

structure GameState where
  time : ℕ
  player : Entity
  entities : List Entity
  platforms : List Platform
  kills : ℕ
  extractionActive : Bool
  extractionZone : Option Rect
  extractionFrameCount : ℕ
  gameOver : Bool
  readingTimer : ℕ
  isReading : Bool
  isLootMenuOpen : Bool
  interactionTarget : Option ℕ
  inventory : List Item
  potions : ℕ
  lootModal : Option Item
  callbacks : List (Bool × ℚ × ℕ)
deriving DecidableEq, Repr

-- ---------------------------------------------------------------- spawning

def isLiveRogue (e : Entity) : Bool :=
  decide (e.type = EntityType.ROGUE_AGENT) && !e.isDead

def aliveRogueCount (es : List Entity) : ℕ :=
  es.countP isLiveRogue

def mobCount (es : List Entity) : ℕ :=
  es.countP fun e =>
    decide (e.type = EntityType.MOB_SLIME) || decide (e.type = EntityType.MOB_BAT)

def mkMob (bat : Bool) (x y : ℚ) : Entity :=
  { type := if bat then EntityType.MOB_BAT else EntityType.MOB_SLIME,
    x := x, y := y, width := 32, height := 32, vx := 0, vy := 0,
    hp := 30, maxHp := 30, facing := 1, attackCooldown := 0, hitFlashTimer := 0,
    isDead := false, skillCooldown := 0, jumpCount := 0, isJumpKeyHeld := false,
    jumpCooldown := 0, isOpened := false }

def mkRogue (x y : ℚ) : Entity :=
  { type := EntityType.ROGUE_AGENT,
    x := x, y := y, width := 32, height := 48, vx := 0, vy := 0,
    hp := 120, maxHp := 120, facing := -1, attackCooldown := 0, hitFlashTimer := 0,
    isDead := false, skillCooldown := 0, jumpCount := 0, isJumpKeyHeld := false,
    jumpCooldown := 0, isOpened := false }

/-- SPAWN LOGIC: a slime/bat every 200 frames below 50 registry entries,
a rogue every 1200 frames below 5 live rogues (counted after the mob push,
as in the source). -/
def spawnPhase (time : ℕ) (p : Entity) (es : List Entity) (o : Oracle) :
    List Entity :=
  let es1 :=
    if time % 200 = 0 ∧ es.length < 50 then
      es ++ [mkMob o.spawnBat (p.x + (if o.spawnRight then 600 else -600)) (p.y - 100)]
    else es
  if time % 1200 = 0 ∧ aliveRogueCount es1 < 5 then
    es1 ++ [mkRogue (p.x + 500) (p.y - 100)]
  else es1

-- ------------------------------------------------------------ player input

/-- JUMP LOGIC (edge-triggered double jump). -/
def jumpUpdate (p : Entity) (pressed : Bool) : Entity :=
  if pressed then
    if !p.isJumpKeyHeld then
      if p.jumpCount < 2 then
        { p with vy := JUMP_FORCE, jumpCount := p.jumpCount + 1, isJumpKeyHeld := true }
      else
        { p with isJumpKeyHeld := true }
    else p
  else
    { p with isJumpKeyHeld := false }

/-- Whether this frame's jump press actually fires (sets `didMove`). -/
def jumpFired (p : Entity) (pressed : Bool) : Bool :=
  pressed && !p.isJumpKeyHeld && decide (p.jumpCount < 2)

def moveUpdate (p : Entity) (inp : Input) : Entity :=
  let p1 := if inp.left then { p with vx := p.vx - moveForce, facing := -1 } else p
  if inp.right then { p1 with vx := p1.vx + moveForce, facing := 1 } else p1

def potionUpdate (p : Entity) (potions : ℕ) (pressed : Bool) : Entity × ℕ :=
  if pressed ∧ 0 < potions ∧ p.hp < p.maxHp then
    let healAmount : ℚ := (Rat.floor (p.maxHp * (3/10)) : ℚ)
    ({ p with hp := min (p.hp + healAmount) p.maxHp }, potions - 1)
  else (p, potions)

/-- The first unopened live chest within distance 100 (`Array.find`). -/
def findChestIdx (p : Entity) (es : List Entity) : Option ℕ :=
  es.findIdx? fun e =>
    decide (e.type = EntityType.CHEST) && !e.isDead && !e.isOpened && distLT p e 100

structure InputResult where
  player : Entity
  potions : ℕ
  isReading : Bool
  readingTimer : ℕ
  target : Option ℕ
deriving DecidableEq, Repr

/-- PLAYER PHYSICS input block (runs only while the loot menu is closed):
movement, jump, potion, search-target selection, search start/cancel. -/
def inputPhase (p : Entity) (es : List Entity) (potions : ℕ) (isReading : Bool)
    (readingTimer : ℕ) (inp : Input) : InputResult :=
  let didMove0 := inp.left || inp.right
  let p1 := moveUpdate p inp
  let didMove := didMove0 || jumpFired p1 inp.jump
  let p2 := jumpUpdate p1 inp.jump
  let pp := potionUpdate p2 potions inp.potion
  let tgt := findChestIdx pp.1 es
  let st1 : Bool × ℕ :=
    if isReading = true ∧ didMove = true then (false, 0) else (isReading, readingTimer)
  let isR2 := if inp.search = true ∧ tgt.isSome = true ∧ st1.1 = false then true else st1.1
  { player := pp.1, potions := pp.2, isReading := isR2, readingTimer := st1.2, target := tgt }

def inputGate (s : GameState) (es : List Entity) (inp : Input) : InputResult :=
  if s.isLootMenuOpen then
    { player := s.player, potions := s.potions, isReading := s.isReading,
      readingTimer := s.readingTimer, target := s.interactionTarget }
  else inputPhase s.player es s.potions s.isReading s.readingTimer inp

-- -------------------------------------------------------- player physics

/-- Lines 883-886: `p.vx *= FRICTION; p.vy += GRAVITY; p.x += p.vx;
p.y += p.vy;` (friction before integration for the player). -/
def playerIntegrate (p : Entity) : Entity :=
  let vx := p.vx * FRICTION
  let vy := p.vy + GRAVITY
  { p with vx := vx, vy := vy, x := p.x + vx, y := p.y + vy }

/-- One platform of the player collision pass; the `Bool` is `onGround`. -/
def playerCollideOne (st : Entity × Bool) (plat : Platform) : Entity × Bool :=
  let p := st.1
  if rectIntersect p.toRect plat.toRect then
    if plat.type = PlatformType.LAVA then
      ({ p with hp := 0 }, st.2)
    else
      let overlapY := (p.y + p.height) - plat.y
      if p.vy ≥ 0 ∧ overlapY ≤ 20 ∧ overlapY ≥ 0 then
        ({ p with y := plat.y - p.height, vy := 0, jumpCount := 0 }, true)
      else if p.vy < 0 ∧ p.y < plat.y + plat.height ∧ p.y > plat.y then
        ({ p with y := plat.y + plat.height, vy := 0 }, st.2)
      else (p, st.2)
  else (p, st.2)

def playerCollide (p : Entity) (plats : List Platform) : Entity × Bool :=
  plats.foldl playerCollideOne (p, false)

-- ------------------------------------------------------------ reading/loot

structure ReadResult where
  entities : List Entity
  isReading : Bool
  readingTimer : ℕ
  isLootMenuOpen : Bool
  lootModal : Option Item
  potions : ℕ
deriving DecidableEq, Repr

/-- Reading Logic (lines 913-938): the 90-frame search dwell; on completion
the target chest is opened, the loot menu opens with one generated item,
and a 40% potion drop may land. -/
def readingPhase (es : List Entity) (isReading : Bool) (tgt : Option ℕ)
    (readingTimer : ℕ) (isLootMenuOpen : Bool) (lootModal : Option Item)
    (potions : ℕ) (o : Oracle) : ReadResult :=
  match tgt, isReading with
  | some i, true =>
    let rt := readingTimer + 1
    if 90 ≤ rt then
      let es' :=
        match es.get? i with
        | some c => es.set i { c with isOpened := true }
        | none => es
      { entities := es', isReading := false, readingTimer := 0,
        isLootMenuOpen := true, lootModal := some (generateLoot o.lootR o.lootV),
        potions := if o.potionDrop then potions + 1 else potions }
    else
      { entities := es, isReading := true, readingTimer := rt,
        isLootMenuOpen := isLootMenuOpen, lootModal := lootModal, potions := potions }
  | _, _ =>
    { entities := es, isReading := isReading, readingTimer := readingTimer,
      isLootMenuOpen := isLootMenuOpen, lootModal := lootModal, potions := potions }

-- ---------------------------------------------------------------- combat

def isHostile (e : Entity) : Bool :=
  decide (e.type = EntityType.MOB_SLIME) || decide (e.type = EntityType.MOB_BAT) ||
  decide (e.type = EntityType.ROGUE_AGENT)

def attackHitbox (p : Entity) : Rect :=
  let reach : ℚ := 120
  { x := if p.facing = 1 then p.x + p.width else p.x - reach,
    y := p.y - 10, width := reach, height := p.height + 20 }

/-- `forEach` over the entity array with the kill counter threaded. -/
def hitAll (f : Entity → ℕ → Entity × ℕ) : List Entity → ℕ → List Entity × ℕ
  | [], k => ([], k)
  | e :: es, k =>
    let ek := f e k
    let rest := hitAll f es ek.2
    (ek.1 :: rest.1, rest.2)

/-- Basic attack hit on one entity (20 damage, knockback, kill check at the
moment of damage). -/
def basicAttackOne (facing : ℤ) (hitBox : Rect) (e : Entity) (k : ℕ) :
    Entity × ℕ :=
  if isHostile e = true ∧ e.isDead = false ∧ rectIntersect hitBox e.toRect = true then
    let e' :=
      { e with
        hp := e.hp - 20, hitFlashTimer := 5
        vx := (facing : ℚ) * 15, vy := -6 }
    (e', if e'.hp ≤ 0 ∧ e.type = EntityType.ROGUE_AGENT then k + 1 else k)
  else (e, k)

/-- Swordsman whirlwind hit on one entity (radius 150, 40 damage). -/
def swordSkillOne (p : Entity) (e : Entity) (k : ℕ) : Entity × ℕ :=
  if isHostile e = true ∧ e.isDead = false ∧ distLT p e 150 = true then
    let e' :=
      { e with
        hp := e.hp - 40, hitFlashTimer := 10
        vx := (if e.x - p.x > 0 then (1 : ℚ) else -1) * 20, vy := -10 }
    (e', if e'.hp ≤ 0 ∧ e.type = EntityType.ROGUE_AGENT then k + 1 else k)
  else (e, k)

/-- Mage meteor hit on one entity (radius 120 around the offset point,
60 damage, upward impulse only).  The source compares
`sqrt ((e.x-targetX)^2 + (e.y-p.y)^2)` with 120. -/
def mageSkillOne (p : Entity) (e : Entity) (k : ℕ) : Entity × ℕ :=
  let targetX := p.x + (p.facing : ℚ) * 250
  if isHostile e = true ∧ e.isDead = false ∧
      (e.x - targetX) * (e.x - targetX) + (e.y - p.y) * (e.y - p.y) < 120 * 120 then
    let e' := { e with hp := e.hp - 60, hitFlashTimer := 10, vy := -12 }
    (e', if e'.hp ≤ 0 ∧ e.type = EntityType.ROGUE_AGENT then k + 1 else k)
  else (e, k)

structure CombatResult where
  player : Entity
  entities : List Entity
  kills : ℕ
deriving DecidableEq, Repr

/-- COMBAT LOGIC (lines 941-1008): cooldown-gated basic attack then skill. -/
def combatPhase (hero : HeroType) (p : Entity) (es : List Entity) (kills : ℕ)
    (inp : Input) : CombatResult :=
  let c1 : CombatResult :=
    if inp.attack = true ∧ p.attackCooldown ≤ 0 then
      let hit := hitAll (basicAttackOne p.facing (attackHitbox p)) es kills
      { player := { p with attackCooldown := 20 }, entities := hit.1, kills := hit.2 }
    else { player := p, entities := es, kills := kills }
  if inp.skill = true ∧ c1.player.skillCooldown ≤ 0 then
    let hit :=
      match hero with
      | HeroType.SWORDSMAN => hitAll (swordSkillOne c1.player) c1.entities c1.kills
      | HeroType.MAGE => hitAll (mageSkillOne c1.player) c1.entities c1.kills
    { player := { c1.player with skillCooldown := 180 }, entities := hit.1, kills := hit.2 }
  else c1

def combatGate (hero : HeroType) (menuOpen : Bool) (p : Entity) (es : List Entity)
    (kills : ℕ) (inp : Input) : CombatResult :=
  if menuOpen then { player := p, entities := es, kills := kills }
  else combatPhase hero p es kills inp

def playerCooldowns (p : Entity) : Entity :=
  let p1 := if p.attackCooldown > 0 then { p with attackCooldown := p.attackCooldown - 1 } else p
  let p2 := if p1.hitFlashTimer > 0 then { p1 with hitFlashTimer := p1.hitFlashTimer - 1 } else p1
  if p2.skillCooldown > 0 then { p2 with skillCooldown := p2.skillCooldown - 1 } else p2

-- ------------------------------------------------------------ entity loop

/-- Lines 1018-1021: gravity (skipped for bats), integrate, then friction. -/
def entityIntegrate (e : Entity) : Entity :=
  let vy := if e.type ≠ EntityType.MOB_BAT then e.vy + GRAVITY else e.vy
  { e with vy := vy, x := e.x + e.vx, y := e.y + vy, vx := e.vx * FRICTION }

/-- One platform of the entity collision pass (lava check, support snap
only; bats are exempt from lava). -/
def entityCollideOne (st : Entity × Bool) (plat : Platform) : Entity × Bool :=
  let e := st.1
  if rectIntersect e.toRect plat.toRect then
    if plat.type = PlatformType.LAVA then
      (if e.type ≠ EntityType.MOB_BAT then { e with hp := 0 } else e, st.2)
    else if e.vy > 0 ∧ (e.y + e.height) - plat.y ≤ 20 then
      ({ e with y := plat.y - e.height, vy := 0 }, true)
    else (e, st.2)
  else (e, st.2)

def entityCollide (e : Entity) (plats : List Platform) : Entity × Bool :=
  plats.foldl entityCollideOne (e, false)

/-- Rogue chase/kite steering with the ±5/2 speed clamp and facing. -/
def rogueSteer (e p : Entity) : Entity :=
  let dx := p.x - e.x
  let dir0 : ℚ := if dx > 0 then 1 else -1
  let dm : ℚ × ℚ :=
    if e.attackCooldown > 0 ∧ distLT e p 120 = true then (dir0 * -1, 3/10)
    else (dir0, 1/2)
  let vx1 := e.vx + dm.1 * dm.2
  let vx2 := if vx1 > 5/2 then 5/2 else vx1
  let vx3 := if vx2 < -5/2 then -5/2 else vx2
  { e with vx := vx3, facing := if dx > 0 then 1 else (-1 : ℤ) }

/-- Rogue jump logic (player well above, or stuck against an obstacle). -/
def rogueJump (e p : Entity) (onG : Bool) : Entity :=
  if e.jumpCooldown ≤ 0 ∧ onG = true then
    if p.y - e.y < -60 then { e with vy := JUMP_FORCE, jumpCooldown := 60 }
    else if |e.vx| < 1 ∧ |p.x - e.x| > 30 then
      { e with vy := JUMP_FORCE, jumpCooldown := 60 }
    else e
  else e

/-- Rogue melee strike on the player within distance 60 off cooldown. -/
def rogueStrike (e p : Entity) : Entity × Entity :=
  if distLT e p 60 = true ∧ e.attackCooldown ≤ 0 then
    ({ e with attackCooldown := 45 },
     { p with
       hp := p.hp - 6, hitFlashTimer := 5
       vx := (if p.x > e.x then (1 : ℚ) else -1) * 10 })
  else (e, p)

/-- Rogue AI (aggro already checked): chase/kite, speed clamp, jump logic,
melee attack on the player.  Returns (rogue, player).  The stages leave
the rogue's position untouched, so recomputing the center distance per
stage agrees with the single `dist` of the source. -/
def rogueAI (e p : Entity) (onG : Bool) : Entity × Entity :=
  rogueStrike (rogueJump (rogueSteer e p) p onG) p

def slimeAI (e p : Entity) : Entity × Entity :=
  let dx := p.x - e.x
  let dir : ℚ := if dx > 0 then 1 else -1
  let e1 := { e with vx := e.vx + dir * (1/5), facing := if dx > 0 then 1 else (-1 : ℤ) }
  if distLT e1 p 40 = true ∧ rectIntersect e1.toRect p.toRect = true then
    (e1, { p with hp := p.hp - 1/5 })
  else (e1, p)

def batAI (e p : Entity) : Entity :=
  let dx := p.x - e.x
  let dy := p.y - e.y
  let dir : ℚ := if dx > 0 then 1 else -1
  { e with
    vx := e.vx + dir * (3/10)
    vy := (e.vy + (if dy > 0 then (1 : ℚ) else -1) * (1/10)) * (9/10) }

/-- Hit-flash and AI-jump cooldown ticks (lines 1036-1037). -/
def entityTimers (e : Entity) : Entity :=
  let e3 := if e.hitFlashTimer > 0 then { e with hitFlashTimer := e.hitFlashTimer - 1 } else e
  if e3.jumpCooldown > 0 then { e3 with jumpCooldown := e3.jumpCooldown - 1 } else e3

/-- AI Aggro dispatch (lines 1040-1094): only within distance 800. -/
def entityAI (e p : Entity) (onG : Bool) : Entity × Entity :=
  if distLT e p 800 = true then
    match e.type with
    | EntityType.ROGUE_AGENT => rogueAI e p onG
    | EntityType.MOB_SLIME => slimeAI e p
    | EntityType.MOB_BAT => (batAI e p, p)
    | _ => (e, p)
  else (e, p)

/-- Attack-cooldown tick and the death check (lines 1096-1097). -/
def entityFinish (e : Entity) : Entity :=
  let e6 := if e.attackCooldown > 0 then { e with attackCooldown := e.attackCooldown - 1 } else e
  if e6.hp ≤ 0 then { e6 with isDead := true } else e6

/-- One iteration of the ENTITY LOOP (lines 1015-1098) for a single entity.
Returns (player, entity) since rogue/slime AI may hurt the player. -/
def entityUpdateOne (plats : List Platform) (p e : Entity) : Entity × Entity :=
  if e.isDead = true ∨ e.type = EntityType.CHEST then (p, e)
  else
    let ec := entityCollide (entityIntegrate e) plats
    let ai := entityAI (entityTimers ec.1) p ec.2
    (ai.2, entityFinish ai.1)

/-- The full entity loop, threading the player through in list order. -/
def entityPhase (plats : List Platform) : Entity → List Entity → Entity × List Entity
  | p, [] => (p, [])
  | p, e :: es =>
    let pe := entityUpdateOne plats p e
    let rest := entityPhase plats pe.1 es
    (rest.1, pe.2 :: rest.2)

-- ----------------------------------------------------- game end/extraction

def inventoryValue (inv : List Item) : ℚ :=
  inv.foldl (fun a b => a + b.value) 0

/-- GAME END (lines 1101-1104): death check fires the callback but does not
stop the rest of the frame. -/
def gameEndPhase (p : Entity) (kills : ℕ) (gameOver : Bool)
    (callbacks : List (Bool × ℚ × ℕ)) : Bool × List (Bool × ℚ × ℕ) :=
  if p.hp ≤ 0 then (true, callbacks ++ [(false, 0, kills)])
  else (gameOver, callbacks)

/-- EXTRACTION activation at frame 1800: pick a random non-LAVA non-WOOD
platform and place an 80x100 zone above it.  (With no eligible platform the
source dereferences `undefined` and crashes; that branch is unreachable for
the generated map and is modelled as keeping the old zone.) -/
def extractionSpawn (time : ℕ) (plats : List Platform) (active : Bool)
    (zone : Option Rect) (o : Oracle) : Bool × Option Rect :=
  if time = 1800 then
    let validPlats := plats.filter fun q =>
      decide (q.type ≠ PlatformType.LAVA) && decide (q.type ≠ PlatformType.WOOD)
    match validPlats.get? (o.extractIdx % validPlats.length) with
    | some tp =>
      (true, some { x := tp.x + tp.width/2 - 40, y := tp.y - 100, width := 80, height := 100 })
    | none => (true, zone)
  else (active, zone)

structure ExtractResult where
  gameOver : Bool
  callbacks : List (Bool × ℚ × ℕ)
  count : ℕ
deriving DecidableEq, Repr

/-- EXTRACTION dwell (lines 1124-1139): in-zone frames increment the
counter, past 180 the success callback fires; out of zone resets to 0. -/
def extractionPhase (p : Entity) (active : Bool) (zone : Option Rect)
    (count : ℕ) (inv : List Item) (kills : ℕ) (gameOver : Bool)
    (callbacks : List (Bool × ℚ × ℕ)) : ExtractResult :=
  if active then
    match zone with
    | some z =>
      if rectIntersect p.toRect z then
        let c := count + 1
        if c > 180 then
          { gameOver := true, callbacks := callbacks ++ [(true, inventoryValue inv, kills)],
            count := c }
        else { gameOver := gameOver, callbacks := callbacks, count := c }
      else { gameOver := gameOver, callbacks := callbacks, count := 0 }
    | none => { gameOver := gameOver, callbacks := callbacks, count := count }
  else { gameOver := gameOver, callbacks := callbacks, count := count }

-- ------------------------------------------------------------- frame step

/-- One body of the `loop` callback (after the game-over guard), in source
order: time, spawn, player input, player physics, player collision, reading
logic, combat, cooldowns, entity loop, game-end check, extraction. -/
def frameStep (hero : HeroType) (s : GameState) (inp : Input) (o : Oracle) :
    GameState :=
  let time := s.time + 1
  let es1 := spawnPhase time s.player s.entities o
  let ir := inputGate s es1 inp
  let pI := playerIntegrate ir.player
  let pc := playerCollide pI s.platforms
  let rr := readingPhase es1 ir.isReading ir.target ir.readingTimer
    s.isLootMenuOpen s.lootModal ir.potions o
  let cr := combatGate hero rr.isLootMenuOpen pc.1 rr.entities s.kills inp
  let p2 := playerCooldowns cr.player
  let ep := entityPhase s.platforms p2 cr.entities
  let ge := gameEndPhase ep.1 cr.kills s.gameOver s.callbacks
  let ez := extractionSpawn time s.platforms s.extractionActive s.extractionZone o
  let ex := extractionPhase ep.1 ez.1 ez.2 s.extractionFrameCount s.inventory
    cr.kills ge.1 ge.2
  { s with
    time := time, player := ep.1, entities := ep.2, kills := cr.kills
    gameOver := ex.gameOver, callbacks := ex.callbacks
    extractionActive := ez.1, extractionZone := ez.2, extractionFrameCount := ex.count
    readingTimer := rr.readingTimer, isReading := rr.isReading
    isLootMenuOpen := rr.isLootMenuOpen, lootModal := rr.lootModal
    potions := rr.potions, interactionTarget := ir.target }

/-- The `loop` callback: after game over nothing runs (line 781). -/
def frame (hero : HeroType) (s : GameState) (inp : Input) (o : Oracle) :
    GameState :=
  if s.gameOver then s else frameStep hero s inp o

-- ======================================================================
-- Concrete data for counterexamples and witnesses
-- ======================================================================

def floorPlat : Platform :=
  { x := -1000, y := 100, width := 2000, height := 40, type := PlatformType.STONE }

def basePlayer : Entity :=
  { type := EntityType.PLAYER, x := 0, y := 52, width := 32, height := 48, vx := 0, vy := 0
    hp := 100, maxHp := 100, facing := 1, attackCooldown := 0, hitFlashTimer := 0
    isDead := false, skillCooldown := 0, jumpCount := 0, isJumpKeyHeld := false
    jumpCooldown := 0, isOpened := false }

def noInput : Input :=
  { left := false, right := false, jump := false, attack := false, skill := false
    potion := false, search := false }

def dullOracle : Oracle :=
  { spawnRight := false, spawnBat := false, lootR := 0, lootV := 0, potionDrop := false
    extractIdx := 0 }

def c1Zone : Rect := { x := -40, y := 0, width := 80, height := 100 }

/-- A session mid-extraction: the player stands in the zone at dwell frame
180 with 5 hp; a rogue with its attack off cooldown stands 40px away. -/
def c1State : GameState :=
  { time := 5000, player := { basePlayer with hp := 5 }, entities := [mkRogue 40 52]
    platforms := [floorPlat], kills := 0, extractionActive := true
    extractionZone := some c1Zone, extractionFrameCount := 180, gameOver := false
    readingTimer := 0, isReading := false, isLootMenuOpen := false
    interactionTarget := none, inventory := [], potions := 0, lootModal := none
    callbacks := [] }

/-- Claim C1 (refuted by the code): in the frame in which the rogue's melee
hit brings the player to -1 hp while the player completes the extraction
dwell, the session-end callback fires twice — once for death
(line 1101-1104, no early return) and once for extraction success
(line 1124-1139). -/
theorem c1_session_end_callback_fired_twice :
    c1State.gameOver = false ∧ c1State.callbacks = [] ∧
    (frame HeroType.SWORDSMAN c1State noInput dullOracle).callbacks =
      [(false, 0, 0), (true, 0, 0)] := by decide

def c2Player : Entity := { basePlayer with y := 0 }

def c2Rogue : Entity := { mkRogue 50 0 with hp := 20 }

def c2Input : Input := { noInput with attack := true, skill := true }

/-- Claim C2 (refuted by the code): a rogue at 20 hp hit in one frame by
both the basic attack (20 dmg, lines 961-963) and the whirlwind skill
(40 dmg, lines 984-986) increments the kill counter twice, because
`isDead` is only set later in the entity loop (line 1097). -/
theorem c2_same_rogue_counted_twice :
    c2Rogue.hp = 20 ∧ c2Rogue.isDead = false ∧
    (combatPhase HeroType.SWORDSMAN c2Player [c2Rogue] 0 c2Input).kills = 2 := by
  decide

def c3Bat : Entity :=
  { type := EntityType.MOB_BAT, x := 0, y := 0, width := 32, height := 32, vx := 0, vy := 0
    hp := 30, maxHp := 30, facing := 1, attackCooldown := 0, hitFlashTimer := 0
    isDead := false, skillCooldown := 0, jumpCount := 0, isJumpKeyHeld := false
    jumpCooldown := 0, isOpened := false }

def c3Lava : Platform := { x := 0, y := 0, width := 100, height := 20, type := PlatformType.LAVA }

/-- Claim C3, counterexample: a bat intersecting a LAVA platform keeps its
30 hp — line 1027 guards the instant kill with `e.type !== "MOB_BAT"`. -/
theorem c3_counterexample_bat_survives_lava :
    rectIntersect c3Bat.toRect c3Lava.toRect = true ∧
    (entityCollide c3Bat [c3Lava]).1.hp = 30 ∧
    (entityCollide c3Bat [c3Lava]).1.hp ≠ 0 := by decide

def c8Player : Entity := { basePlayer with vx := 10 }

/-- Claim C8, counterexample: the player's per-frame position delta is the
POST-friction horizontal velocity (10 * 17/20 = 17/2), not the pre-friction
one — lines 883-886 damp `vx` before integrating. -/
theorem c8_counterexample_player_moves_postfriction :
    c8Player.vx = 10 ∧
    (playerIntegrate c8Player).x - c8Player.x = 17/2 ∧
    (playerIntegrate c8Player).x - c8Player.x ≠ c8Player.vx := by decide

/-- Claim C8 (amended): non-player entities integrate in the order
gravity (skipped for bats) → position += velocity → friction, so their
position delta uses the pre-friction velocity; the player damps `vx`
first, then applies gravity, then integrates, so the player's delta uses
the post-friction velocity. -/
theorem c8_integration_order (e p : Entity) :
    ((entityIntegrate e).x = e.x + e.vx ∧
     (entityIntegrate e).vx = e.vx * FRICTION ∧
     (entityIntegrate e).vy =
       (if e.type = EntityType.MOB_BAT then e.vy else e.vy + GRAVITY) ∧
     (entityIntegrate e).y =
       e.y + (if e.type = EntityType.MOB_BAT then e.vy else e.vy + GRAVITY)) ∧
    ((playerIntegrate p).x = p.x + p.vx * FRICTION ∧
     (playerIntegrate p).vx = p.vx * FRICTION ∧
     (playerIntegrate p).vy = p.vy + GRAVITY ∧
     (playerIntegrate p).y = p.y + (p.vy + GRAVITY)) := by
  constructor
  · by_cases h : e.type = EntityType.MOB_BAT <;>
      simp [entityIntegrate, h]
  · exact ⟨rfl, rfl, rfl, by simp [playerIntegrate]⟩

/-- Claim C9: accepting adds the item only below the 20-slot cap, a full
inventory silently drops it, and pickup as well as discard always close
the modal and clear the loot-menu flag. -/
theorem c9_inventory_cap_and_flag_clear (inv : List Item) (modal : Option Item)
    (it : Item) :
    (modal = some it → inv.length < INVENTORY_CAP →
      (handlePickup inv modal).1 = inv ++ [it]) ∧
    (INVENTORY_CAP ≤ inv.length → (handlePickup inv modal).1 = inv) ∧
    (handlePickup inv modal).2.1 = none ∧
    (handlePickup inv modal).2.2 = false ∧
    handleDiscard inv = (inv, none, false) := by
  cases modal with
  | none =>
    exact ⟨fun h => by simp at h, fun _ => rfl, rfl, rfl, rfl⟩
  | some a =>
    refine ⟨?_, ?_, ?_, rfl, rfl⟩
    · intro h hlt
      obtain rfl : a = it := by simpa using h
      simp [handlePickup, hlt]
    · intro hge
      have hn : ¬inv.length < INVENTORY_CAP := by omega
      simp [handlePickup, hn]
    · simp [handlePickup]

def wItem : Item := { rarity := LootRarity.COMMON, value := 5 }

theorem c9_inventory_cap_and_flag_clear_witness :
    (handlePickup [] (some wItem)).1 = [wItem] ∧
    (handlePickup (List.replicate 20 wItem) (some wItem)).1 = List.replicate 20 wItem :=
  ⟨by simpa using (c9_inventory_cap_and_flag_clear [] (some wItem) wItem).1 rfl (by decide),
   (c9_inventory_cap_and_flag_clear (List.replicate 20 wItem) (some wItem) wItem).2.1
     (by decide)⟩

/-- Claim C4: while extraction is active with a zone, an in-zone frame
increments the dwell counter by exactly 1; the success callback (with the
summed inventory value and the kill count) fires exactly when the counter
exceeds 180; an out-of-zone frame resets the counter to 0. -/
theorem c4_extraction_dwell (p : Entity) (z : Rect) (count : ℕ) (inv : List Item)
    (kills : ℕ) (go : Bool) (cb : List (Bool × ℚ × ℕ)) :
    (rectIntersect p.toRect z = true →
      (extractionPhase p true (some z) count inv kills go cb).count = count + 1 ∧
      (180 < count + 1 →
        (extractionPhase p true (some z) count inv kills go cb).gameOver = true ∧
        (extractionPhase p true (some z) count inv kills go cb).callbacks =
          cb ++ [(true, inventoryValue inv, kills)]) ∧
      (count + 1 ≤ 180 →
        (extractionPhase p true (some z) count inv kills go cb).gameOver = go ∧
        (extractionPhase p true (some z) count inv kills go cb).callbacks = cb)) ∧
    (rectIntersect p.toRect z = false →
      (extractionPhase p true (some z) count inv kills go cb).count = 0 ∧
      (extractionPhase p true (some z) count inv kills go cb).callbacks = cb) := by
  constructor
  · intro h
    by_cases hc : 180 < count + 1
    · simp [extractionPhase, h, hc]
      omega
    · simp [extractionPhase, h, hc]
  · intro h
    simp [extractionPhase, h]

theorem c4_extraction_dwell_witness :
    rectIntersect basePlayer.toRect c1Zone = true ∧
    (extractionPhase basePlayer true (some c1Zone) 180 [] 3 false []).count = 181 ∧
    (extractionPhase basePlayer true (some c1Zone) 180 [] 3 false []).callbacks =
      [(true, 0, 3)] := by
  have h := (c4_extraction_dwell basePlayer c1Zone 180 [] 3 false []).1 (by decide)
  exact ⟨by decide, h.1, by simpa [inventoryValue] using (h.2.1 (by omega)).2⟩

/-- Claim C5: a jump press fires only on the rising edge (key released
since the previous press) and only below 2 consumed charges, setting the
fixed upward impulse and incrementing the counter; with 2 charges consumed
or the key still held nothing changes; releasing the key re-arms the edge;
and a support snap in the collision pass resets the counter to 0. -/
theorem c5_double_jump (p : Entity) (pressed : Bool) (st : Entity × Bool)
    (q : Platform) :
    (pressed = true → p.isJumpKeyHeld = false → p.jumpCount < 2 →
      jumpUpdate p pressed =
        { p with vy := JUMP_FORCE, jumpCount := p.jumpCount + 1, isJumpKeyHeld := true }) ∧
    (pressed = true → 2 ≤ p.jumpCount →
      (jumpUpdate p pressed).vy = p.vy ∧
      (jumpUpdate p pressed).jumpCount = p.jumpCount) ∧
    (pressed = true → p.isJumpKeyHeld = true → jumpUpdate p pressed = p) ∧
    (pressed = false → jumpUpdate p pressed = { p with isJumpKeyHeld := false }) ∧
    (rectIntersect st.1.toRect q.toRect = true → q.type ≠ PlatformType.LAVA →
      st.1.vy ≥ 0 → (st.1.y + st.1.height) - q.y ≤ 20 →
      (st.1.y + st.1.height) - q.y ≥ 0 →
      (playerCollideOne st q).1.jumpCount = 0 ∧ (playerCollideOne st q).2 = true) := by
  refine ⟨?_, ?_, ?_, ?_, ?_⟩
  · intro hp hh hc
    simp [jumpUpdate, hp, hh, hc]
  · intro hp hc
    have hnc : ¬p.jumpCount < 2 := by omega
    by_cases hh : p.isJumpKeyHeld <;> simp [jumpUpdate, hp, hh, hnc]
  · intro hp hh
    simp [jumpUpdate, hp, hh]
  · intro hp
    simp [jumpUpdate, hp]
  · intro hi hl hv ho1 ho2
    simp [playerCollideOne, hi, hl, hv, ho1, ho2]

def wFaller : Entity := { basePlayer with y := 62, vy := 5, jumpCount := 2 }

theorem c5_double_jump_witness :
    (jumpUpdate { basePlayer with isJumpKeyHeld := false } true).jumpCount = 1 ∧
    (playerCollideOne (wFaller, false) floorPlat).1.jumpCount = 0 := by
  constructor
  · have h := (c5_double_jump { basePlayer with isJumpKeyHeld := false } true
      (wFaller, false) floorPlat).1 rfl rfl (by decide)
    rw [h]
    decide
  · exact ((c5_double_jump basePlayer true (wFaller, false) floorPlat).2.2.2.2
      (by decide) (by decide) (by decide) (by decide) (by decide)).1

-- ======================================================================
-- C3 (amended): hazard contact, bats excepted
-- ======================================================================

lemma playerCollideOne_hp_cases (st : Entity × Bool) (q : Platform) :
    (playerCollideOne st q).1.hp = st.1.hp ∨ (playerCollideOne st q).1.hp = 0 := by
  simp only [playerCollideOne]
  split_ifs <;> simp

lemma entityCollideOne_hp_cases (st : Entity × Bool) (q : Platform) :
    (entityCollideOne st q).1.hp = st.1.hp ∨ (entityCollideOne st q).1.hp = 0 := by
  simp only [entityCollideOne]
  split_ifs <;> simp

lemma foldl_playerCollideOne_hp_zero :
    ∀ (l : List Platform) (st : Entity × Bool), st.1.hp = 0 →
      (l.foldl playerCollideOne st).1.hp = 0 := by
  intro l
  induction l with
  | nil => intro st h; simpa using h
  | cons q l ih =>
    intro st h
    rw [List.foldl_cons]
    apply ih
    rcases playerCollideOne_hp_cases st q with h1 | h1
    · rw [h1]; exact h
    · exact h1

lemma foldl_entityCollideOne_hp_zero :
    ∀ (l : List Platform) (st : Entity × Bool), st.1.hp = 0 →
      (l.foldl entityCollideOne st).1.hp = 0 := by
  intro l
  induction l with
  | nil => intro st h; simpa using h
  | cons q l ih =>
    intro st h
    rw [List.foldl_cons]
    apply ih
    rcases entityCollideOne_hp_cases st q with h1 | h1
    · rw [h1]; exact h
    · exact h1

lemma entityCollideOne_type_dead (st : Entity × Bool) (q : Platform) :
    (entityCollideOne st q).1.type = st.1.type ∧
    (entityCollideOne st q).1.isDead = st.1.isDead := by
  simp only [entityCollideOne]
  split_ifs <;> simp

lemma foldl_entityCollideOne_type :
    ∀ (l : List Platform) (st : Entity × Bool),
      (l.foldl entityCollideOne st).1.type = st.1.type := by
  intro l
  induction l with
  | nil => intro st; rfl
  | cons q l ih =>
    intro st
    rw [List.foldl_cons, ih, (entityCollideOne_type_dead st q).1]

/-- Claim C3 (amended): during the collision pass, an entity found
intersecting a hazard-liquid (LAVA) platform has its health forced to 0 by
the end of the pass — for the player and for slimes and rogues, but NOT
for bats, which the entity loop exempts; and a hazard platform never
applies any positional or velocity correction. -/
theorem c3_hazard_sets_health_zero (e : Entity) (l1 l2 : List Platform)
    (q : Platform) (hq : q.type = PlatformType.LAVA) :
    (rectIntersect (playerCollide e l1).1.toRect q.toRect = true →
      (playerCollide e (l1 ++ q :: l2)).1.hp = 0) ∧
    (e.type ≠ EntityType.MOB_BAT →
      rectIntersect (entityCollide e l1).1.toRect q.toRect = true →
      (entityCollide e (l1 ++ q :: l2)).1.hp = 0) ∧
    (∀ st : Entity × Bool,
      (playerCollideOne st q).1.x = st.1.x ∧ (playerCollideOne st q).1.y = st.1.y ∧
      (playerCollideOne st q).1.vx = st.1.vx ∧ (playerCollideOne st q).1.vy = st.1.vy ∧
      (entityCollideOne st q).1.x = st.1.x ∧ (entityCollideOne st q).1.y = st.1.y ∧
      (entityCollideOne st q).1.vx = st.1.vx ∧ (entityCollideOne st q).1.vy = st.1.vy) := by
  refine ⟨?_, ?_, ?_⟩
  · intro hint
    simp only [playerCollide] at hint ⊢
    rw [List.foldl_append, List.foldl_cons]
    apply foldl_playerCollideOne_hp_zero
    simp [playerCollideOne, hint, hq]
  · intro hbat hint
    simp only [entityCollide] at hint ⊢
    rw [List.foldl_append, List.foldl_cons]
    apply foldl_entityCollideOne_hp_zero
    have htype : (List.foldl entityCollideOne (e, false) l1).1.type ≠ EntityType.MOB_BAT := by
      rw [foldl_entityCollideOne_type]
      exact hbat
    simp [entityCollideOne, hint, hq, htype]
  · intro st
    have hplayer : (playerCollideOne st q).1.x = st.1.x ∧ (playerCollideOne st q).1.y = st.1.y ∧
        (playerCollideOne st q).1.vx = st.1.vx ∧ (playerCollideOne st q).1.vy = st.1.vy := by
      simp only [playerCollideOne]
      split_ifs <;> simp_all
    have hentity : (entityCollideOne st q).1.x = st.1.x ∧ (entityCollideOne st q).1.y = st.1.y ∧
        (entityCollideOne st q).1.vx = st.1.vx ∧ (entityCollideOne st q).1.vy = st.1.vy := by
      simp only [entityCollideOne]
      split_ifs <;> simp_all
    exact ⟨hplayer.1, hplayer.2.1, hplayer.2.2.1, hplayer.2.2.2,
      hentity.1, hentity.2.1, hentity.2.2.1, hentity.2.2.2⟩

def wSlime : Entity := { c3Bat with type := EntityType.MOB_SLIME }

theorem c3_hazard_sets_health_zero_witness :
    (entityCollide wSlime [c3Lava]).1.hp = 0 ∧
    (playerCollide { basePlayer with y := 0 } [c3Lava]).1.hp = 0 :=
  ⟨(c3_hazard_sets_health_zero wSlime [] [] c3Lava rfl).2.1 (by decide) (by decide),
   (c3_hazard_sets_health_zero { basePlayer with y := 0 } [] [] c3Lava rfl).1
     (by decide)⟩

-- ======================================================================
-- C6 (amended): search dwell
-- ======================================================================

/-- Claim C6 (amended): once started by a search press with a target
active, the dwell timer accumulates each frame in which a target is active
and no movement input occurs — whether or not the search key is still
held; any movement input resets the timer to 0 (and stops reading unless
the search key restarts it, while the chest list is untouched: `inputPhase`
never writes to the entity list); and on the timer reaching the 90-frame
threshold exactly the target chest is marked opened and exactly one loot
item is generated behind the opened loot menu. -/
theorem c6_search_dwell (p : Entity) (es : List Entity) (pot : ℕ) (rt : ℕ)
    (inp : Input) (o : Oracle) (menu : Bool) (modal : Option Item) (i : ℕ)
    (c : Entity) :
    ((inp.left = true ∨ inp.right = true) →
      (inputPhase p es pot true rt inp).readingTimer = 0 ∧
      (inp.search = false → (inputPhase p es pot true rt inp).isReading = false)) ∧
    (readingPhase es false (some i) rt menu modal pot o =
      { entities := es, isReading := false, readingTimer := rt
        isLootMenuOpen := menu, lootModal := modal, potions := pot }) ∧
    (rt + 1 < 90 →
      (readingPhase es true (some i) rt menu modal pot o).entities = es ∧
      (readingPhase es true (some i) rt menu modal pot o).readingTimer = rt + 1 ∧
      (readingPhase es true (some i) rt menu modal pot o).lootModal = modal ∧
      (readingPhase es true (some i) rt menu modal pot o).isLootMenuOpen = menu) ∧
    (90 ≤ rt + 1 → es.get? i = some c →
      (readingPhase es true (some i) rt menu modal pot o).entities =
        es.set i { c with isOpened := true } ∧
      (readingPhase es true (some i) rt menu modal pot o).lootModal =
        some (generateLoot o.lootR o.lootV) ∧
      (readingPhase es true (some i) rt menu modal pot o).isLootMenuOpen = true ∧
      (readingPhase es true (some i) rt menu modal pot o).isReading = false) := by
  refine ⟨?_, ?_, ?_, ?_⟩
  · intro h
    have hd : (inp.left || inp.right) = true := by
      rcases h with h | h <;> simp [h]
    constructor
    · simp [inputPhase, hd]
    · intro hs
      simp [inputPhase, hd, hs]
  · rfl
  · intro h
    have hn : ¬90 ≤ rt + 1 := by omega
    simp [readingPhase, hn]
  · intro h hget
    have hget' : es[i]? = some c := by
      simpa [List.get?_eq_getElem?] using hget
    simp [readingPhase, h, hget']

def c6Chest : Entity :=
  { type := EntityType.CHEST, x := 50, y := 68, width := 32, height := 32, vx := 0, vy := 0
    hp := 1, maxHp := 1, facing := 1, attackCooldown := 0, hitFlashTimer := 0
    isDead := false, skillCooldown := 0, jumpCount := 0, isJumpKeyHeld := false
    jumpCooldown := 0, isOpened := false }

/-- An in-progress search (reading started on an earlier frame), with the
player idle next to the chest and the search key NOT held this frame. -/
def c6State : GameState :=
  { c1State with time := 7, player := basePlayer, entities := [c6Chest]
                 extractionActive := false, extractionZone := none
                 extractionFrameCount := 0, isReading := true, readingTimer := 10
                 interactionTarget := some 0 }

/-- Claim C6, counterexample: with the search key released (`noInput`), no
movement input and a chest in range, the dwell timer still advances from
10 to 11 — the source never rechecks the key once `isReading` is set
(line 878 only starts reading; no release check exists). -/
theorem c6_counterexample_timer_runs_without_search_key :
    noInput.search = false ∧ c6State.isReading = true ∧
    c6State.readingTimer = 10 ∧
    (frame HeroType.SWORDSMAN c6State noInput dullOracle).readingTimer = 11 ∧
    (frame HeroType.SWORDSMAN c6State noInput dullOracle).isReading = true := by
  decide

def c6Oracle : Oracle := { dullOracle with lootR := 19/20, lootV := 1/2 }

theorem c6_search_dwell_witness :
    (readingPhase [c6Chest] true (some 0) 89 false none 0 c6Oracle).entities =
      [{ c6Chest with isOpened := true }] ∧
    (readingPhase [c6Chest] true (some 0) 89 false none 0 c6Oracle).lootModal =
      some (generateLoot (19/20) (1/2)) ∧
    (readingPhase [c6Chest] true (some 0) 89 false none 0 c6Oracle).isLootMenuOpen = true := by
  have h := (c6_search_dwell basePlayer [c6Chest] 0 89 noInput c6Oracle false none 0
    c6Chest).2.2.2 (by omega) rfl
  exact ⟨h.1, h.2.1, h.2.2.1⟩

-- ======================================================================
-- C7: resting on a support platform
-- ======================================================================

/-- After a collision pass that ended grounded, the entity rests exactly
on top of some non-hazard platform of the list with zero fall speed. -/
def restsOn (L : List Platform) (st : Entity × Bool) : Prop :=
  st.2 = true → st.1.vy = 0 ∧
    ∃ q ∈ L, q.type ≠ PlatformType.LAVA ∧ st.1.y + st.1.height = q.y

lemma playerCollideOne_restsOn {L : List Platform} {st : Entity × Bool}
    {q : Platform} (hq : q ∈ L) (h : restsOn L st) :
    restsOn L (playerCollideOne st q) := by
  unfold restsOn at h ⊢
  simp only [playerCollideOne]
  split_ifs with h1 h2 h3 h4
  · intro hg
    obtain ⟨hvy, qq, hmem, hlava, hy⟩ := h hg
    exact ⟨hvy, qq, hmem, hlava, hy⟩
  · intro _
    refine ⟨rfl, q, hq, h2, ?_⟩
    show q.y - st.1.height + st.1.height = q.y
    ring
  · intro hg
    exact absurd (h hg).1 (ne_of_lt h4.1)
  · intro hg
    exact h hg
  · intro hg
    exact h hg

lemma entityCollideOne_restsOn {L : List Platform} {st : Entity × Bool}
    {q : Platform} (hq : q ∈ L) (h : restsOn L st) :
    restsOn L (entityCollideOne st q) := by
  unfold restsOn at h ⊢
  simp only [entityCollideOne]
  split_ifs with h1 h2 h3 h4
  · intro hg
    obtain ⟨hvy, qq, hmem, hlava, hy⟩ := h hg
    exact ⟨hvy, qq, hmem, hlava, hy⟩
  · intro hg
    obtain ⟨hvy, qq, hmem, hlava, hy⟩ := h hg
    exact ⟨hvy, qq, hmem, hlava, hy⟩
  · intro _
    refine ⟨rfl, q, hq, h2, ?_⟩
    show q.y - st.1.height + st.1.height = q.y
    ring
  · intro hg
    exact h hg
  · intro hg
    exact h hg

lemma foldl_playerCollideOne_restsOn {L : List Platform} :
    ∀ (l : List Platform), (∀ q ∈ l, q ∈ L) →
      ∀ st : Entity × Bool, restsOn L st → restsOn L (l.foldl playerCollideOne st) := by
  intro l
  induction l with
  | nil => intro _ st h; simpa using h
  | cons q l ih =>
    intro hsub st h
    rw [List.foldl_cons]
    exact ih (fun r hr => hsub r (List.mem_cons_of_mem q hr))
      _ (playerCollideOne_restsOn (hsub q (List.mem_cons_self q l)) h)

lemma foldl_entityCollideOne_restsOn {L : List Platform} :
    ∀ (l : List Platform), (∀ q ∈ l, q ∈ L) →
      ∀ st : Entity × Bool, restsOn L st → restsOn L (l.foldl entityCollideOne st) := by
  intro l
  induction l with
  | nil => intro _ st h; simpa using h
  | cons q l ih =>
    intro hsub st h
    rw [List.foldl_cons]
    exact ih (fun r hr => hsub r (List.mem_cons_of_mem q hr))
      _ (entityCollideOne_restsOn (hsub q (List.mem_cons_self q l)) h)

/-- Claim C7: after either collision pass, an entity the pass left
grounded (the support-snap branch applied last) has vertical velocity
exactly 0 and its bottom edge exactly on the top edge of a non-hazard
platform of the list — for any platform list, in particular when several
platforms overlap the entity in the same frame. -/
theorem c7_support_snap_rest (e : Entity) (plats : List Platform) :
    ((playerCollide e plats).2 = true →
      (playerCollide e plats).1.vy = 0 ∧
      ∃ q ∈ plats, q.type ≠ PlatformType.LAVA ∧
        (playerCollide e plats).1.y + (playerCollide e plats).1.height = q.y) ∧
    ((entityCollide e plats).2 = true →
      (entityCollide e plats).1.vy = 0 ∧
      ∃ q ∈ plats, q.type ≠ PlatformType.LAVA ∧
        (entityCollide e plats).1.y + (entityCollide e plats).1.height = q.y) := by
  constructor
  · exact foldl_playerCollideOne_restsOn plats (fun _ hq => hq) (e, false)
      (fun hg => by simp at hg)
  · exact foldl_entityCollideOne_restsOn plats (fun _ hq => hq) (e, false)
      (fun hg => by simp at hg)

theorem c7_support_snap_rest_witness :
    (playerCollide wFaller [floorPlat]).2 = true ∧
    (playerCollide wFaller [floorPlat]).1.vy = 0 ∧
    (∃ q ∈ [floorPlat], q.type ≠ PlatformType.LAVA ∧
      (playerCollide wFaller [floorPlat]).1.y +
        (playerCollide wFaller [floorPlat]).1.height = q.y) ∧
    (entityCollide { wSlime with y := 85, vy := 3 } [floorPlat]).2 = true ∧
    (entityCollide { wSlime with y := 85, vy := 3 } [floorPlat]).1.vy = 0 := by
  have h1 := (c7_support_snap_rest wFaller [floorPlat]).1 (by decide)
  have h2 := (c7_support_snap_rest { wSlime with y := 85, vy := 3 } [floorPlat]).2
    (by decide)
  exact ⟨by decide, h1.1, h1.2, by decide, h2.1⟩

-- ======================================================================
-- C10: spawn caps and the live-rogue invariant
-- ======================================================================

lemma aliveRogueCount_append (l1 l2 : List Entity) :
    aliveRogueCount (l1 ++ l2) = aliveRogueCount l1 + aliveRogueCount l2 :=
  List.countP_append _ l1 l2

lemma isLiveRogue_mkMob (b : Bool) (x y : ℚ) : isLiveRogue (mkMob b x y) = false := by
  cases b <;> simp [isLiveRogue, mkMob]

lemma isLiveRogue_mkRogue (x y : ℚ) : isLiveRogue (mkRogue x y) = true := rfl

lemma aliveRogueCount_snoc_mob (es : List Entity) (b : Bool) (x y : ℚ) :
    aliveRogueCount (es ++ [mkMob b x y]) = aliveRogueCount es := by
  rw [aliveRogueCount_append]
  simp [aliveRogueCount, List.countP_cons, isLiveRogue_mkMob]

lemma aliveRogueCount_snoc_rogue (es : List Entity) (x y : ℚ) :
    aliveRogueCount (es ++ [mkRogue x y]) = aliveRogueCount es + 1 := by
  rw [aliveRogueCount_append]
  simp [aliveRogueCount, List.countP_cons, isLiveRogue_mkRogue]

lemma aliveRogueCount_spawnPhase (t : ℕ) (p : Entity) (es : List Entity) (o : Oracle) :
    aliveRogueCount (spawnPhase t p es o) = aliveRogueCount es ∨
    (aliveRogueCount es < 5 ∧
      aliveRogueCount (spawnPhase t p es o) = aliveRogueCount es + 1) := by
  simp only [spawnPhase]
  by_cases hm : t % 200 = 0 ∧ es.length < 50
  · rw [if_pos hm]
    by_cases hr : t % 1200 = 0 ∧ aliveRogueCount
        (es ++ [mkMob o.spawnBat (p.x + (if o.spawnRight then 600 else -600)) (p.y - 100)]) < 5
    · rw [if_pos hr]
      right
      refine ⟨?_, ?_⟩
      · have := hr.2
        rwa [aliveRogueCount_snoc_mob] at this
      · rw [aliveRogueCount_snoc_rogue, aliveRogueCount_snoc_mob]
    · rw [if_neg hr]
      left
      exact aliveRogueCount_snoc_mob es o.spawnBat _ _
  · rw [if_neg hm]
    by_cases hr : t % 1200 = 0 ∧ aliveRogueCount es < 5
    · rw [if_pos hr]
      right
      exact ⟨hr.2, aliveRogueCount_snoc_rogue es _ _⟩
    · rw [if_neg hr]
      left
      rfl

lemma mobCount_snoc_rogue (es : List Entity) (x y : ℚ) :
    mobCount (es ++ [mkRogue x y]) = mobCount es := by
  simp [mobCount, List.countP_append, List.countP_cons, mkRogue]

lemma mobCount_spawnPhase_full (t : ℕ) (p : Entity) (es : List Entity) (o : Oracle)
    (h : 50 ≤ es.length) : mobCount (spawnPhase t p es o) = mobCount es := by
  have hm : ¬(t % 200 = 0 ∧ es.length < 50) := by
    rintro ⟨-, hlt⟩
    omega
  simp only [spawnPhase, hm, if_false]
  by_cases hr : t % 1200 = 0 ∧ aliveRogueCount es < 5
  · rw [if_pos hr]
    exact mobCount_snoc_rogue es _ _
  · rw [if_neg hr]

lemma countP_set_congr (f : Entity → Bool) :
    ∀ (l : List Entity) (i : ℕ) (c c' : Entity), l.get? i = some c → f c' = f c →
      (l.set i c').countP f = l.countP f := by
  intro l
  induction l with
  | nil => intro i c c' h _; simp at h
  | cons a l ih =>
    intro i c c' h hf
    cases i with
    | zero =>
      obtain rfl : a = c := by simpa using h
      simp [List.set, List.countP_cons, hf]
    | succ n =>
      simp only [List.get?] at h
      simp [List.set, List.countP_cons, ih n c c' h hf]

lemma readingPhase_rogues (es : List Entity) (isR : Bool) (tgt : Option ℕ)
    (rt : ℕ) (menu : Bool) (modal : Option Item) (pot : ℕ) (o : Oracle) :
    aliveRogueCount (readingPhase es isR tgt rt menu modal pot o).entities =
      aliveRogueCount es := by
  rcases tgt with _ | i
  · cases isR <;> rfl
  · cases isR
    · rfl
    · simp only [readingPhase]
      by_cases hr : 90 ≤ rt + 1
      · rw [if_pos hr]
        cases hget : es.get? i with
        | none => simp [hget]
        | some c =>
          have hc := countP_set_congr isLiveRogue es i c
            { c with isOpened := true } hget (by simp [isLiveRogue])
          simpa [hget, aliveRogueCount] using hc
      · rw [if_neg hr]

lemma hitAll_countP (f : Entity → ℕ → Entity × ℕ)
    (hf : ∀ e k, isLiveRogue (f e k).1 = isLiveRogue e) :
    ∀ (es : List Entity) (k : ℕ),
      ((hitAll f es k).1).countP isLiveRogue = es.countP isLiveRogue := by
  intro es
  induction es with
  | nil => intro k; rfl
  | cons e es ih =>
    intro k
    simp [hitAll, List.countP_cons, ih, hf]

lemma basicAttackOne_live (facing : ℤ) (hitBox : Rect) (e : Entity) (k : ℕ) :
    isLiveRogue (basicAttackOne facing hitBox e k).1 = isLiveRogue e := by
  simp only [basicAttackOne]
  split_ifs <;> simp [isLiveRogue]

lemma swordSkillOne_live (p e : Entity) (k : ℕ) :
    isLiveRogue (swordSkillOne p e k).1 = isLiveRogue e := by
  simp only [swordSkillOne]
  split_ifs <;> simp [isLiveRogue]

lemma mageSkillOne_live (p e : Entity) (k : ℕ) :
    isLiveRogue (mageSkillOne p e k).1 = isLiveRogue e := by
  simp only [mageSkillOne]
  split_ifs <;> simp [isLiveRogue]

lemma combatGate_rogues (hero : HeroType) (m : Bool) (p : Entity)
    (es : List Entity) (k : ℕ) (inp : Input) :
    aliveRogueCount (combatGate hero m p es k inp).entities = aliveRogueCount es := by
  have hbasic : ∀ (pp : Entity) (l : List Entity) (kk : ℕ),
      aliveRogueCount (hitAll (basicAttackOne pp.facing (attackHitbox pp)) l kk).1 =
        aliveRogueCount l :=
    fun pp l kk => hitAll_countP _ (fun e k' => basicAttackOne_live _ _ e k') l kk
  have hsword : ∀ (pp : Entity) (l : List Entity) (kk : ℕ),
      aliveRogueCount (hitAll (swordSkillOne pp) l kk).1 = aliveRogueCount l :=
    fun pp l kk => hitAll_countP _ (fun e k' => swordSkillOne_live pp e k') l kk
  have hmage : ∀ (pp : Entity) (l : List Entity) (kk : ℕ),
      aliveRogueCount (hitAll (mageSkillOne pp) l kk).1 = aliveRogueCount l :=
    fun pp l kk => hitAll_countP _ (fun e k' => mageSkillOne_live pp e k') l kk
  rcases m with _ | _
  · simp only [combatGate, Bool.false_eq_true, if_false, combatPhase]
    cases hero <;> split_ifs <;>
      simp only [hbasic, hsword, hmage]
  · rfl

lemma entityIntegrate_type_dead (e : Entity) :
    (entityIntegrate e).type = e.type ∧ (entityIntegrate e).isDead = e.isDead :=
  ⟨rfl, rfl⟩

lemma foldl_entityCollideOne_dead :
    ∀ (l : List Platform) (st : Entity × Bool),
      (l.foldl entityCollideOne st).1.isDead = st.1.isDead := by
  intro l
  induction l with
  | nil => intro st; rfl
  | cons q l ih =>
    intro st
    rw [List.foldl_cons, ih, (entityCollideOne_type_dead st q).2]

lemma entityTimers_type_dead (e : Entity) :
    (entityTimers e).type = e.type ∧ (entityTimers e).isDead = e.isDead := by
  simp only [entityTimers]
  split_ifs <;> simp

lemma rogueSteer_type_dead (e p : Entity) :
    (rogueSteer e p).type = e.type ∧ (rogueSteer e p).isDead = e.isDead :=
  ⟨rfl, rfl⟩

lemma rogueJump_type_dead (e p : Entity) (onG : Bool) :
    (rogueJump e p onG).type = e.type ∧ (rogueJump e p onG).isDead = e.isDead := by
  simp only [rogueJump]
  split_ifs <;> simp

lemma rogueStrike_type_dead (e p : Entity) :
    (rogueStrike e p).1.type = e.type ∧ (rogueStrike e p).1.isDead = e.isDead := by
  simp only [rogueStrike]
  split_ifs <;> simp

lemma rogueAI_type_dead (e p : Entity) (onG : Bool) :
    (rogueAI e p onG).1.type = e.type ∧ (rogueAI e p onG).1.isDead = e.isDead := by
  unfold rogueAI
  rw [(rogueStrike_type_dead _ _).1, (rogueStrike_type_dead _ _).2,
    (rogueJump_type_dead _ _ _).1, (rogueJump_type_dead _ _ _).2]
  exact rogueSteer_type_dead e p

lemma slimeAI_type_dead (e p : Entity) :
    (slimeAI e p).1.type = e.type ∧ (slimeAI e p).1.isDead = e.isDead := by
  simp only [slimeAI]
  split_ifs <;> simp

lemma batAI_type_dead (e p : Entity) :
    (batAI e p).type = e.type ∧ (batAI e p).isDead = e.isDead :=
  ⟨rfl, rfl⟩

lemma entityAI_type_dead (e p : Entity) (onG : Bool) :
    (entityAI e p onG).1.type = e.type ∧ (entityAI e p onG).1.isDead = e.isDead := by
  simp only [entityAI]
  split_ifs with h
  · cases he : e.type <;>
      simp [he, rogueAI_type_dead, slimeAI_type_dead, batAI_type_dead]
  · exact ⟨rfl, rfl⟩

lemma entityFinish_type_dead (e : Entity) :
    (entityFinish e).type = e.type ∧
    ((entityFinish e).isDead = false → e.isDead = false) := by
  simp only [entityFinish]
  split_ifs <;> simp

lemma entityUpdateOne_live (plats : List Platform) (p e : Entity) :
    isLiveRogue (entityUpdateOne plats p e).2 = true → isLiveRogue e = true := by
  unfold entityUpdateOne
  split_ifs with hskip
  · exact fun h => h
  · intro h
    set ec := entityCollide (entityIntegrate e) plats with hec
    set a := entityAI (entityTimers ec.1) p ec.2 with ha
    have htype : a.1.type = e.type := by
      rw [(entityAI_type_dead _ _ _).1, (entityTimers_type_dead _).1]
      show (entityCollide (entityIntegrate e) plats).1.type = e.type
      rw [entityCollide, foldl_entityCollideOne_type]
      exact (entityIntegrate_type_dead e).1
    have hdead : a.1.isDead = e.isDead := by
      rw [(entityAI_type_dead _ _ _).2, (entityTimers_type_dead _).2]
      show (entityCollide (entityIntegrate e) plats).1.isDead = e.isDead
      rw [entityCollide, foldl_entityCollideOne_dead]
      exact (entityIntegrate_type_dead e).2
    simp only [isLiveRogue, Bool.and_eq_true, decide_eq_true_eq, Bool.not_eq_true'] at h ⊢
    obtain ⟨h1, h2⟩ := h
    refine ⟨?_, ?_⟩
    · rw [← htype, ← (entityFinish_type_dead a.1).1]
      exact h1
    · rw [← hdead]
      exact (entityFinish_type_dead a.1).2 h2
  
lemma entityPhase_rogues (plats : List Platform) :
    ∀ (es : List Entity) (p : Entity),
      aliveRogueCount (entityPhase plats p es).2 ≤ aliveRogueCount es := by
  intro es
  induction es with
  | nil => intro p; simp [entityPhase, aliveRogueCount]
  | cons e es ih =>
    intro p
    simp only [entityPhase, aliveRogueCount, List.countP_cons]
    have h2 := ih (entityUpdateOne plats p e).1
    simp only [aliveRogueCount] at h2
    cases hb : isLiveRogue (entityUpdateOne plats p e).2 with
    | false =>
      cases hbe : isLiveRogue e <;> simp <;> omega
    | true =>
      have he := entityUpdateOne_live plats p e hb
      simp [he]
      omega

/-- Claim C10: a slime or bat spawns only below 50 registry entries, a
rogue spawns only below 5 live rogues, and consequently a full frame step
preserves the invariant that at most 5 live rogue agents exist. -/
theorem c10_spawn_caps (hero : HeroType) (s : GameState) (inp : Input) (o : Oracle)
    (t : ℕ) (p : Entity) (es : List Entity) :
    (50 ≤ es.length → mobCount (spawnPhase t p es o) = mobCount es) ∧
    (5 ≤ aliveRogueCount es →
      aliveRogueCount (spawnPhase t p es o) = aliveRogueCount es) ∧
    (aliveRogueCount es ≤ 5 → aliveRogueCount (spawnPhase t p es o) ≤ 5) ∧
    (aliveRogueCount s.entities ≤ 5 →
      aliveRogueCount (frame hero s inp o).entities ≤ 5) := by
  refine ⟨mobCount_spawnPhase_full t p es o, ?_, ?_, ?_⟩
  · intro h
    rcases aliveRogueCount_spawnPhase t p es o with h1 | ⟨h1, -⟩
    · exact h1
    · omega
  · intro h
    rcases aliveRogueCount_spawnPhase t p es o with h1 | ⟨h1, h2⟩
    · omega
    · omega
  · intro h
    rw [frame]
    split_ifs with hgo
    · exact h
    · have hspawn : aliveRogueCount (spawnPhase (s.time + 1) s.player s.entities o) ≤ 5 := by
        rcases aliveRogueCount_spawnPhase (s.time + 1) s.player s.entities o with h1 | ⟨h1, h2⟩
        · omega
        · omega
      calc aliveRogueCount (frameStep hero s inp o).entities
          = aliveRogueCount (entityPhase s.platforms
              (playerCooldowns (combatGate hero
                (readingPhase (spawnPhase (s.time + 1) s.player s.entities o)
                  (inputGate s (spawnPhase (s.time + 1) s.player s.entities o) inp).isReading
                  (inputGate s (spawnPhase (s.time + 1) s.player s.entities o) inp).target
                  (inputGate s (spawnPhase (s.time + 1) s.player s.entities o) inp).readingTimer
                  s.isLootMenuOpen s.lootModal
                  (inputGate s (spawnPhase (s.time + 1) s.player s.entities o) inp).potions
                  o).isLootMenuOpen
                (playerCollide (playerIntegrate
                  (inputGate s (spawnPhase (s.time + 1) s.player s.entities o) inp).player)
                  s.platforms).1
                (readingPhase (spawnPhase (s.time + 1) s.player s.entities o)
                  (inputGate s (spawnPhase (s.time + 1) s.player s.entities o) inp).isReading
                  (inputGate s (spawnPhase (s.time + 1) s.player s.entities o) inp).target
                  (inputGate s (spawnPhase (s.time + 1) s.player s.entities o) inp).readingTimer
                  s.isLootMenuOpen s.lootModal
                  (inputGate s (spawnPhase (s.time + 1) s.player s.entities o) inp).potions
                  o).entities
                s.kills inp).player)
              (combatGate hero
                (readingPhase (spawnPhase (s.time + 1) s.player s.entities o)
                  (inputGate s (spawnPhase (s.time + 1) s.player s.entities o) inp).isReading
                  (inputGate s (spawnPhase (s.time + 1) s.player s.entities o) inp).target
                  (inputGate s (spawnPhase (s.time + 1) s.player s.entities o) inp).readingTimer
                  s.isLootMenuOpen s.lootModal
                  (inputGate s (spawnPhase (s.time + 1) s.player s.entities o) inp).potions
                  o).isLootMenuOpen
                (playerCollide (playerIntegrate
                  (inputGate s (spawnPhase (s.time + 1) s.player s.entities o) inp).player)
                  s.platforms).1
                (readingPhase (spawnPhase (s.time + 1) s.player s.entities o)
                  (inputGate s (spawnPhase (s.time + 1) s.player s.entities o) inp).isReading
                  (inputGate s (spawnPhase (s.time + 1) s.player s.entities o) inp).target
                  (inputGate s (spawnPhase (s.time + 1) s.player s.entities o) inp).readingTimer
                  s.isLootMenuOpen s.lootModal
                  (inputGate s (spawnPhase (s.time + 1) s.player s.entities o) inp).potions
                  o).entities
                s.kills inp).entities).2 := rfl
        _ ≤ aliveRogueCount (combatGate hero
                (readingPhase (spawnPhase (s.time + 1) s.player s.entities o)
                  (inputGate s (spawnPhase (s.time + 1) s.player s.entities o) inp).isReading
                  (inputGate s (spawnPhase (s.time + 1) s.player s.entities o) inp).target
                  (inputGate s (spawnPhase (s.time + 1) s.player s.entities o) inp).readingTimer
                  s.isLootMenuOpen s.lootModal
                  (inputGate s (spawnPhase (s.time + 1) s.player s.entities o) inp).potions
                  o).isLootMenuOpen
                (playerCollide (playerIntegrate
                  (inputGate s (spawnPhase (s.time + 1) s.player s.entities o) inp).player)
                  s.platforms).1
                (readingPhase (spawnPhase (s.time + 1) s.player s.entities o)
                  (inputGate s (spawnPhase (s.time + 1) s.player s.entities o) inp).isReading
                  (inputGate s (spawnPhase (s.time + 1) s.player s.entities o) inp).target
                  (inputGate s (spawnPhase (s.time + 1) s.player s.entities o) inp).readingTimer
                  s.isLootMenuOpen s.lootModal
                  (inputGate s (spawnPhase (s.time + 1) s.player s.entities o) inp).potions
                  o).entities
                s.kills inp).entities := entityPhase_rogues _ _ _
        _ = aliveRogueCount (readingPhase (spawnPhase (s.time + 1) s.player s.entities o)
                  (inputGate s (spawnPhase (s.time + 1) s.player s.entities o) inp).isReading
                  (inputGate s (spawnPhase (s.time + 1) s.player s.entities o) inp).target
                  (inputGate s (spawnPhase (s.time + 1) s.player s.entities o) inp).readingTimer
                  s.isLootMenuOpen s.lootModal
                  (inputGate s (spawnPhase (s.time + 1) s.player s.entities o) inp).potions
                  o).entities := combatGate_rogues _ _ _ _ _ _
        _ = aliveRogueCount (spawnPhase (s.time + 1) s.player s.entities o) :=
              readingPhase_rogues _ _ _ _ _ _ _ _
        _ ≤ 5 := hspawn

def c10State : GameState :=
  { c1State with entities := [mkRogue 40 52, mkRogue 300 52], extractionActive := false
                 extractionZone := none }

theorem c10_spawn_caps_witness :
    aliveRogueCount c10State.entities = 2 ∧
    aliveRogueCount (frame HeroType.SWORDSMAN c10State noInput dullOracle).entities ≤ 5 :=
  ⟨by decide,
   (c10_spawn_caps HeroType.SWORDSMAN c10State noInput dullOracle 0 basePlayer []).2.2.2
     (by decide)⟩

end Battle
